import Mathlib

/-!
Shallow embedding of `src/libs/virtual_joystick/utils.py`.

Conventions of the embedding:
* Python `bytes` values are `List ℕ` whose elements are in `[0, 255]`;
  wherever the Python runtime guarantees this through the `bytes` type,
  the embedded decoder checks it explicitly.
* Python floats used by `Vec2` and `Timer` are modelled as `ℚ`
  (exact arithmetic; every numeral appearing in the claims is exact in
  binary floating point, so the rational model agrees with the source
  on the inputs at issue).
* `struct.error` raised by `struct.pack`/`struct.unpack` is modelled by
  `Except`/`Option` failure; the constructors of the error types record
  which check fired, matching the spec's error taxonomy.
-/

/-- `Vec2` from the source: a joystick coordinate pair, clipped to
`[-1.0, 1.0]` componentwise at construction. -/
structure Vec2 where
  x : ℚ
  y : ℚ
deriving DecidableEq

/-- `Vec2.__init__`: `self.x = min(max(-1.0, x), 1.0)` and likewise for `y`. -/
def Vec2.init (x y : ℚ) : Vec2 :=
  { x := min (max (-1) x) 1, y := min (max (-1) y) 1 }

/-- `Timer` from the source: a period and the stamp of the last (virtual)
fire instant; the timer is due once `now ≥ stamp + period_s`. -/
structure Timer where
  period_s : ℚ
  stamp : ℚ
deriving DecidableEq

/-- `Timer.check`, with `now = time.monotonic()` passed explicitly.
Returns the fired flag, the catch-up report (`some n` models the
`print` of `n` missed periods, emitted only when `missed_periods > 1`),
and the updated timer.  `int((stamp - self.stamp) // self.period_s)` is
floor division on floats, modelled by `Int.floor`. -/
def Timer.check (t : Timer) (now : ℚ) : Bool × Option ℤ × Timer :=
  if now < t.stamp + t.period_s then
    (false, none, t)
  else
    let missed_periods : ℤ := ⌊(now - t.stamp) / t.period_s⌋
    let report : Option ℤ := if missed_periods > 1 then some missed_periods else none
    (true, report, { t with stamp := t.stamp + (missed_periods + 1) * t.period_s })

/-- The four wire formats of `ReqRepValFmts`:
`SHORT = "<h2x"`, `USHORT = "<H2x"`, `FLOAT = "<f"`, `BOOL = "<B3x"`. -/
inductive ReqRepValFmt where
  | short
  | ushort
  | float
  | bool
deriving DecidableEq

/-- `req_rep_val_fmt_dict` from the source, as a partial lookup: value ids
are the numerals of `ReqRepValIds`; the commented-out entries
(`MAX_LIN_ACC = 22`, `M14_ON = 34`, `M15_ON = 35`, `WHEEL_BASELINE = 51`)
are absent.  `PTO_DEF_RPM` and `PTO_GEAR_RATIO` are both the key `84`
(a duplicate key in the Python dict literal; both bind `FLOAT`, so the
surviving entry is `FLOAT` either way). -/
def req_rep_val_fmt_dict : ℕ → Option ReqRepValFmt
  | 10 => some .ushort
  | 11 => some .bool
  | 20 => some .float
  | 21 => some .float
  | 23 => some .float
  | 30 => some .bool
  | 31 => some .bool
  | 32 => some .bool
  | 33 => some .bool
  | 40 => some .float
  | 41 => some .float
  | 50 => some .float
  | 52 => some .float
  | 53 => some .float
  | 80 => some .ushort
  | 81 => some .float
  | 82 => some .float
  | 83 => some .float
  | 84 => some .float
  | 90 => some .float
  | _ => none

/-- Failures of `unpack_req_rep_value`: the `assert len(payload) == 4`
(the spec's `InvalidPayloadLength`) and the dict lookup miss
(the spec's `UnregisteredValueId`). -/
inductive UnpackError where
  | invalidPayloadLength
  | unregisteredValueId
deriving DecidableEq

/-- Little-endian signed 16-bit read (`struct` format `h`) from two bytes. -/
def decodeI16 (b0 b1 : ℕ) : ℤ :=
  let u : ℤ := (b0 : ℤ) + 256 * (b1 : ℤ)
  if u < 32768 then u else u - 65536

/-- Little-endian signed 16-bit write (`struct` format `h`,
two's complement) as a pair of bytes, low byte first. -/
def encodeI16 (v : ℤ) : ℕ × ℕ :=
  ((v % 65536).toNat % 256, (v % 65536).toNat / 256)

/-- The result of `struct.unpack(fmt, payload)` for the four registry
formats.  `float` keeps the raw little-endian 32-bit word (the IEEE-754
reinterpretation is outside the codec); `bool` is the raw first byte, as
`"<B3x"` unpacks to a Python int. -/
inductive ReqRepValue where
  | short (v : ℤ)
  | ushort (v : ℕ)
  | float (word : ℕ)
  | bool (v : ℕ)
deriving DecidableEq

/-- `unpack_req_rep_value` from the source: asserts the payload is exactly
4 bytes, then looks the id up in `req_rep_val_fmt_dict` (a miss raises
`KeyError`, the spec's `UnregisteredValueId`) and unpacks per the format. -/
def unpack_req_rep_value (val_id : ℕ) (payload : List ℕ) :
    Except UnpackError ReqRepValue :=
  match payload with
  | [b0, b1, b2, b3] =>
    match req_rep_val_fmt_dict val_id with
    | none => .error .unregisteredValueId
    | some .short => .ok (.short (decodeI16 b0 b1))
    | some .ushort => .ok (.ushort (b0 + 256 * b1))
    | some .float => .ok (.float (b0 + 256 * b1 + 65536 * b2 + 16777216 * b3))
    | some .bool => .ok (.bool b0)
  | _ => .error .invalidPayloadLength

/-- The `struct.error` failures of the two `encode` methods, tagged by the
field whose range check fired: `B` (the packed op/success byte, the spec's
`InvalidOperation`), `H` (the value id), `h` (an RPM channel). -/
inductive StructError where
  | invalidOperation
  | valueIdOutOfRange
  | rpmOutOfRange
deriving DecidableEq

/-- `FarmngRepReq.encode`: `struct.pack("<BHx4s", op_id | (success << 7),
val_id, payload)`.  `B` fails unless the packed byte is in `[0, 255]`;
`H` fails unless `val_id` is in `[0, 65535]`; `x` writes a zero pad byte;
`4s` truncates the payload to 4 bytes or pads it with zero bytes. -/
def FarmngRepReq.encode (op_id : ℕ) (success : Bool) (val_id : ℕ)
    (payload : List ℕ) : Except StructError (List ℕ) :=
  let b0 : ℕ := op_id ||| (if success then 128 else 0)
  if 255 < b0 then .error .invalidOperation
  else if 65535 < val_id then .error .valueIdOutOfRange
  else .ok ([b0, val_id % 256, val_id / 256, 0] ++
    (payload.take 4 ++ List.replicate (4 - payload.length) 0))

/-- `FarmngRepReq.decode`: `struct.unpack("<BHx4s", data)` fails unless
`data` is exactly 8 bytes (`struct.calcsize("<BHx4s") = 8`); then
`success = byte0 >> 7` and `op_id = byte0 & ~0x80` (bit 7 cleared), and
the value id is the little-endian 16-bit field.  Result fields in order:
`(op_id, success, val_id, payload)`; `success` is a Python int after
decode, modelled as `ℕ`.  The byte-range tests model the `bytes` type of
`data`. -/
def FarmngRepReq.decode (data : List ℕ) : Option (ℕ × ℕ × ℕ × List ℕ) :=
  match data with
  | [b0, v0, v1, pad, p0, p1, p2, p3] =>
    if b0 ≤ 255 ∧ v0 ≤ 255 ∧ v1 ≤ 255 ∧ pad ≤ 255 ∧
        p0 ≤ 255 ∧ p1 ≤ 255 ∧ p2 ≤ 255 ∧ p3 ≤ 255 then
      some (b0 % 128, b0 / 128, v0 + 256 * v1, [p0, p1, p2, p3])
    else none
  | _ => none

/-- `AmigaPdo2.encode`: `struct.pack("<4h", a, b, c, d)`.  Each `h` fails
(`struct.error`) unless the value is in `[-32768, 32767]`; otherwise the
four channels are written as little-endian signed 16-bit, A then B then C
then D. -/
def AmigaPdo2.encode (a_rpm b_rpm c_rpm d_rpm : ℤ) :
    Except StructError (List ℕ) :=
  if a_rpm < -32768 ∨ 32767 < a_rpm ∨ b_rpm < -32768 ∨ 32767 < b_rpm ∨
      c_rpm < -32768 ∨ 32767 < c_rpm ∨ d_rpm < -32768 ∨ 32767 < d_rpm then
    .error .rpmOutOfRange
  else
    .ok [(encodeI16 a_rpm).1, (encodeI16 a_rpm).2,
         (encodeI16 b_rpm).1, (encodeI16 b_rpm).2,
         (encodeI16 c_rpm).1, (encodeI16 c_rpm).2,
         (encodeI16 d_rpm).1, (encodeI16 d_rpm).2]

/-- `AmigaPdo2.decode`: `struct.unpack("<4h", data)` fails unless `data`
is exactly 8 bytes; otherwise returns the four channels `(a, b, c, d)`.
The byte-range tests model the `bytes` type of `data`. -/
def AmigaPdo2.decode (data : List ℕ) : Option (ℤ × ℤ × ℤ × ℤ) :=
  match data with
  | [a0, a1, b0, b1, c0, c1, d0, d1] =>
    if a0 ≤ 255 ∧ a1 ≤ 255 ∧ b0 ≤ 255 ∧ b1 ≤ 255 ∧
        c0 ≤ 255 ∧ c1 ≤ 255 ∧ d0 ≤ 255 ∧ d1 ≤ 255 then
      some (decodeI16 a0 a1, decodeI16 b0 b1, decodeI16 c0 c1, decodeI16 d0 d1)
    else none
  | _ => none


/-! ### Helper lemmas -/

/-- Right shift distributes over bitwise or on `ℕ`. -/
theorem lor_shiftRight (a b n : ℕ) : (a ||| b) >>> n = (a >>> n) ||| (b >>> n) := by
  apply Nat.eq_of_testBit_eq
  intro i
  simp [Nat.testBit_shiftRight, Nat.testBit_lor]

/-- For an operation id fitting in 7 bits, setting the success bit is
plain addition of `128`. -/
theorem lor128_eq_add (op : ℕ) (h : op ≤ 127) : op ||| 128 = op + 128 := by
  interval_cases op <;> rfl

/-- Or-ing the success bit onto a value of 8 bits or more keeps it
of 8 bits or more. -/
theorem lt_lor128_of_ge (op : ℕ) (h : 256 ≤ op) : 255 < op ||| 128 := by
  have hd := lor_shiftRight op 128 8
  have h128 : (128 : ℕ) >>> 8 = 0 := by decide
  rw [h128, Nat.or_zero] at hd
  have hop : 1 ≤ op >>> 8 := by
    rw [Nat.shiftRight_eq_div_pow]
    omega
  rw [← hd, Nat.shiftRight_eq_div_pow] at hop
  omega

/-- Round trip of the little-endian signed 16-bit field for in-range values. -/
theorem decodeI16_encodeI16 (v : ℤ) (h1 : -32768 ≤ v) (h2 : v ≤ 32767) :
    decodeI16 (encodeI16 v).1 (encodeI16 v).2 = v := by
  unfold decodeI16 encodeI16
  simp only []
  split <;> omega

/-- The low byte produced by `encodeI16` is a byte. -/
theorem encodeI16_fst_le (v : ℤ) : (encodeI16 v).1 ≤ 255 := by
  unfold encodeI16
  simp only []
  omega

/-- The high byte produced by `encodeI16` is a byte. -/
theorem encodeI16_snd_le (v : ℤ) : (encodeI16 v).2 ≤ 255 := by
  unfold encodeI16
  simp only []
  omega

/-- Evaluation of `Timer.check` on the concrete scenario of the timer
claim: period `1`, last stamp `0` (so the deadline is `1`), called at
`7/2`, i.e. `2.5` periods past the deadline. -/
theorem timer_check_concrete :
    (Timer.mk 1 0).check (7/2) = (true, some 3, Timer.mk 1 4) := by
  unfold Timer.check
  norm_num

/-! ### Claims -/

/-- C4 (confirmed).  Telemetry codec round-trip: for all four signed
16-bit integers in `[-32768, 32767]`, decoding the 8-byte encoding of an
`AmigaPdo2` message returns the four channel values unchanged, in order
A, B, C, D. -/
theorem claim4_telemetry_roundtrip (a b c d : ℤ)
    (ha1 : -32768 ≤ a) (ha2 : a ≤ 32767)
    (hb1 : -32768 ≤ b) (hb2 : b ≤ 32767)
    (hc1 : -32768 ≤ c) (hc2 : c ≤ 32767)
    (hd1 : -32768 ≤ d) (hd2 : d ≤ 32767) :
    ∃ frame, AmigaPdo2.encode a b c d = .ok frame ∧
      AmigaPdo2.decode frame = some (a, b, c, d) := by
  unfold AmigaPdo2.encode
  rw [if_neg (by omega)]
  refine ⟨_, rfl, ?_⟩
  unfold AmigaPdo2.decode
  simp only []
  rw [if_pos]
  · rw [decodeI16_encodeI16 a ha1 ha2, decodeI16_encodeI16 b hb1 hb2,
      decodeI16_encodeI16 c hc1 hc2, decodeI16_encodeI16 d hd1 hd2]
  · exact ⟨encodeI16_fst_le a, encodeI16_snd_le a, encodeI16_fst_le b, encodeI16_snd_le b,
      encodeI16_fst_le c, encodeI16_snd_le c, encodeI16_fst_le d, encodeI16_snd_le d⟩

/-- Witness for C4 at `(1, -1, 32767, -32768)`. -/
theorem claim4_witness :
    ∃ frame, AmigaPdo2.encode 1 (-1) 32767 (-32768) = .ok frame ∧
      AmigaPdo2.decode frame = some (1, -1, 32767, -32768) :=
  claim4_telemetry_roundtrip 1 (-1) 32767 (-32768)
    (by norm_num) (by norm_num) (by norm_num) (by norm_num)
    (by norm_num) (by norm_num) (by norm_num) (by norm_num)

/-- C6 (confirmed).  Value payload length checking: for every value id
(registered or not) and every payload whose length is not 4 — in
particular lengths 3 and 5 — `unpack_req_rep_value` fails with the
`InvalidPayloadLength` error (the `assert len(payload) == 4`), regardless
of the value id. -/
theorem claim6_payload_length (val_id : ℕ) (payload : List ℕ)
    (h : payload.length ≠ 4) :
    unpack_req_rep_value val_id payload = .error .invalidPayloadLength := by
  rcases payload with _ | ⟨a, _ | ⟨b, _ | ⟨c, _ | ⟨d, _ | ⟨e, tl⟩⟩⟩⟩⟩ <;>
    first
      | rfl
      | simp at h

/-- Witness for C6: a 3-byte and a 5-byte payload, registered id `10`
and unregistered id `12`. -/
theorem claim6_witness :
    unpack_req_rep_value 10 [0, 0, 0] = .error .invalidPayloadLength ∧
    unpack_req_rep_value 12 [0, 0, 0, 0, 0] = .error .invalidPayloadLength :=
  ⟨claim6_payload_length 10 [0, 0, 0] (by simp),
   claim6_payload_length 12 [0, 0, 0, 0, 0] (by simp)⟩

/-- C7 (confirmed).  Unregistered value id lookup: for every value id
with no entry in `req_rep_val_fmt_dict`, decoding any 4-byte payload via
`unpack_req_rep_value` fails with the `UnregisteredValueId` error. -/
theorem claim7_unregistered_value_id (val_id : ℕ)
    (h : req_rep_val_fmt_dict val_id = none) (p0 p1 p2 p3 : ℕ) :
    unpack_req_rep_value val_id [p0, p1, p2, p3] =
      .error .unregisteredValueId := by
  unfold unpack_req_rep_value
  rw [h]

/-- Witness for C7 at id `22` (`MAX_LIN_ACC`, commented out of the
table in the source) with payload `[1, 2, 3, 4]`. -/
theorem claim7_witness :
    unpack_req_rep_value 22 [1, 2, 3, 4] = .error .unregisteredValueId :=
  claim7_unregistered_value_id 22 rfl 1 2 3 4

/-- C8 (confirmed).  Vec2 clamp invariant: for every pair of inputs both
components of the constructed `Vec2` lie in `[-1, 1]`, and
`Vec2.init (5/2) (-3)` has components exactly `(1, -1)`. -/
theorem claim8_vec2_clamp :
    (∀ x y : ℚ, -1 ≤ (Vec2.init x y).x ∧ (Vec2.init x y).x ≤ 1 ∧
      -1 ≤ (Vec2.init x y).y ∧ (Vec2.init x y).y ≤ 1) ∧
    Vec2.init (5/2) (-3) = { x := 1, y := -1 } := by
  constructor
  · intro x y
    unfold Vec2.init
    refine ⟨le_min (le_max_left _ _) (by norm_num), min_le_right _ _,
      le_min (le_max_left _ _) (by norm_num), min_le_right _ _⟩
  · unfold Vec2.init
    rw [Vec2.mk.injEq]
    constructor
    · rw [max_eq_right (by norm_num), min_eq_right (by norm_num)]
    · rw [max_eq_left (by norm_num), min_eq_left (by norm_num)]

/-- C1 (corrected: the encoded frame is 8 bytes, not 7 —
`struct.calcsize("<BHx4s") = 1 + 2 + 1 + 4 = 8`).  Counterexample to the
claim as stated: the encoding of a concrete message has length 8, so
there is no "7-byte encoding". -/
theorem claim1_counterexample :
    (FarmngRepReq.encode 1 true 5 [9, 8, 7, 6]).map List.length = .ok 8 ∧
    (FarmngRepReq.encode 1 true 5 [9, 8, 7, 6]).map List.length ≠ .ok 7 := by
  constructor
  · rfl
  · intro h
    rw [show (FarmngRepReq.encode 1 true 5 [9, 8, 7, 6]).map List.length =
      .ok 8 from rfl] at h
    simp at h

/-- C1 (amended).  Request/Reply codec round-trip: for every operation in
`[0, 127]`, every value id in `[0, 65535]`, every success flag, and every
4-byte payload, decoding the 8-byte encoding of a `FarmngRepReq` message
reproduces the original operation, value id, success flag (as the int
`1`/`0` that `decode` stores), and payload exactly. -/
theorem claim1_reqrep_roundtrip (op : ℕ) (s : Bool) (v p0 p1 p2 p3 : ℕ)
    (hop : op ≤ 127) (hv : v ≤ 65535)
    (h0 : p0 ≤ 255) (h1 : p1 ≤ 255) (h2 : p2 ≤ 255) (h3 : p3 ≤ 255) :
    ∃ frame, FarmngRepReq.encode op s v [p0, p1, p2, p3] = .ok frame ∧
      FarmngRepReq.decode frame =
        some (op, (if s then 1 else 0), v, [p0, p1, p2, p3]) := by
  have hb : (op ||| (if s then 128 else 0)) = op + (if s then 128 else 0) := by
    cases s
    · simp
    · simpa using lor128_eq_add op hop
  unfold FarmngRepReq.encode
  simp only [hb]
  rw [if_neg (by split <;> omega), if_neg (by omega)]
  refine ⟨_, rfl, ?_⟩
  unfold FarmngRepReq.decode
  simp only [List.take, List.length_cons, List.length_nil, List.replicate,
    List.append_nil, List.cons_append, List.nil_append]
  rw [if_pos]
  · have e1 : (op + if s then 128 else 0) % 128 = op := by split <;> omega
    have e2 : (op + if s then 128 else 0) / 128 = if s then 1 else 0 := by
      split <;> omega
    have e3 : v % 256 + 256 * (v / 256) = v := by omega
    rw [e1, e2, e3]
  · refine ⟨by split <;> omega, by omega, by omega, by omega, h0, h1, h2, h3⟩

/-- Witness for C1 (amended) at `op = 1`, `success = true`, `val_id = 5`,
payload `[9, 8, 7, 6]`. -/
theorem claim1_witness :
    ∃ frame, FarmngRepReq.encode 1 true 5 [9, 8, 7, 6] = .ok frame ∧
      FarmngRepReq.decode frame = some (1, 1, 5, [9, 8, 7, 6]) :=
  claim1_reqrep_roundtrip 1 true 5 9 8 7 6 (by norm_num) (by norm_num)
    (by norm_num) (by norm_num) (by norm_num) (by norm_num)

/-- C2 (corrected: the source performs no 7-bit check; `struct.pack`'s
`B` field only rejects values above 255).  Counterexample to the claim as
stated: `operation = 128 ≥ 128` with `success = False` encodes
successfully instead of failing. -/
theorem claim2_counterexample :
    FarmngRepReq.encode 128 false 0 [0, 0, 0, 0] =
      .ok [128, 0, 0, 0, 0, 0, 0, 0] := rfl

/-- C2 (amended).  `FarmngRepReq.encode` fails with the operation-byte
`struct.error` (the spec's `InvalidOperation`) exactly when the packed
byte `operation | (success << 7)` exceeds 255: every operation ≥ 256
fails for every success flag, while every operation ≤ 255 (in particular
those in `[128, 255]`, which the spec wanted rejected) is accepted
whenever the value id is valid. -/
theorem claim2_encode_operation_check :
    (∀ (op : ℕ) (s : Bool) (v : ℕ) (p : List ℕ), 256 ≤ op →
      FarmngRepReq.encode op s v p = .error .invalidOperation) ∧
    (∀ (op : ℕ) (s : Bool) (v : ℕ) (p : List ℕ), op ≤ 255 → v ≤ 65535 →
      ∃ frame, FarmngRepReq.encode op s v p = .ok frame) := by
  constructor
  · intro op s v p hop
    unfold FarmngRepReq.encode
    simp only []
    rw [if_pos]
    cases s
    · simpa using hop
    · simpa using lt_lor128_of_ge op hop
  · intro op s v p hop hv
    have hb : op ||| (if s then 128 else 0) ≤ 255 := by
      have h := Nat.or_lt_two_pow (n := 8) (x := op)
        (y := if s then 128 else 0)
      norm_num at h
      have := h (by omega) (by split <;> omega)
      omega
    unfold FarmngRepReq.encode
    simp only []
    rw [if_neg (by omega), if_neg (by omega)]
    exact ⟨_, rfl⟩

/-- Witness for C2 (amended): `operation = 300` fails with the
operation-byte error for both flags; `operation = 129` is accepted. -/
theorem claim2_witness :
    FarmngRepReq.encode 300 true 0 [0, 0, 0, 0] = .error .invalidOperation ∧
    FarmngRepReq.encode 300 false 0 [0, 0, 0, 0] = .error .invalidOperation ∧
    ∃ frame, FarmngRepReq.encode 129 true 0 [0, 0, 0, 0] = .ok frame :=
  ⟨claim2_encode_operation_check.1 300 true 0 [0, 0, 0, 0] (by norm_num),
   claim2_encode_operation_check.1 300 false 0 [0, 0, 0, 0] (by norm_num),
   claim2_encode_operation_check.2 129 true 0 [0, 0, 0, 0] (by norm_num)
     (by norm_num)⟩

/-- C5 (corrected: the Request/Reply frame is 8 bytes, so the length
gate of `FarmngRepReq.decode` is "≠ 8 fails", not "≠ 7 fails").
Counterexample to the claim as stated: an 8-byte input — whose length is
not 7 — decodes successfully instead of failing. -/
theorem claim5_counterexample :
    FarmngRepReq.decode [0, 0, 0, 0, 0, 0, 0, 0] =
      some (0, 0, 0, [0, 0, 0, 0]) ∧
    ([0, 0, 0, 0, 0, 0, 0, 0] : List ℕ).length ≠ 7 := by
  constructor
  · rfl
  · simp

/-- C5 (amended).  Message decode length checking: for every byte string
whose length is not exactly 8, `FarmngRepReq.decode` fails
(`struct.error`, the spec's `MalformedPacket`), and likewise for every
byte string whose length is not exactly 8, `AmigaPdo2.decode` fails; in
both cases no partial result is produced. -/
theorem claim5_decode_length_check :
    (∀ data : List ℕ, data.length ≠ 8 → FarmngRepReq.decode data = none) ∧
    (∀ data : List ℕ, data.length ≠ 8 → AmigaPdo2.decode data = none) := by
  constructor <;>
  · intro data h
    rcases data with _ | ⟨a, _ | ⟨b, _ | ⟨c, _ | ⟨d, _ | ⟨e, _ | ⟨f, _ |
      ⟨g, _ | ⟨i, _ | ⟨j, tl⟩⟩⟩⟩⟩⟩⟩⟩⟩ <;>
      first
        | rfl
        | simp at h

/-- Witness for C5 (amended) on 7-byte and 9-byte inputs. -/
theorem claim5_witness :
    FarmngRepReq.decode [1, 2, 3, 4, 5, 6, 7] = none ∧
    AmigaPdo2.decode [1, 2, 3, 4, 5, 6, 7, 8, 9] = none :=
  ⟨claim5_decode_length_check.1 [1, 2, 3, 4, 5, 6, 7] (by simp),
   claim5_decode_length_check.2 [1, 2, 3, 4, 5, 6, 7, 8, 9] (by simp)⟩

/-- C9 (corrected: frames are 8 bytes, so "decoding a 7-byte frame whose
first byte is 0x81" cannot yield anything).  Counterexample to the claim
as stated: a 7-byte frame starting with `0x81` fails to decode, so it
does not yield operation 1 and success true. -/
theorem claim9_counterexample :
    FarmngRepReq.decode [129, 0, 0, 0, 0, 0, 0] = none := rfl

/-- C9 (amended).  Success flag bit packing: encoding a Request/Reply
message with `operation = Read(1)` and `success = true` produces a first
byte equal to `0x81 = 129`, and decoding an 8-byte frame whose first byte
is `0x81` yields operation 1 and success 1 (true). -/
theorem claim9_success_bit_packing :
    (∀ (v : ℕ) (p : List ℕ), v ≤ 65535 →
      ∃ rest, FarmngRepReq.encode 1 true v p = .ok (129 :: rest)) ∧
    (∀ v0 v1 pad p0 p1 p2 p3 : ℕ, v0 ≤ 255 → v1 ≤ 255 → pad ≤ 255 →
      p0 ≤ 255 → p1 ≤ 255 → p2 ≤ 255 → p3 ≤ 255 →
      FarmngRepReq.decode [129, v0, v1, pad, p0, p1, p2, p3] =
        some (1, 1, v0 + 256 * v1, [p0, p1, p2, p3])) := by
  constructor
  · intro v p hv
    unfold FarmngRepReq.encode
    simp only [if_true]
    rw [show ((1 : ℕ) ||| 128) = 129 from rfl]
    rw [if_neg (by omega), if_neg (by omega)]
    exact ⟨_, rfl⟩
  · intro v0 v1 pad p0 p1 p2 p3 hv0 hv1 hpad h0 h1 h2 h3
    unfold FarmngRepReq.decode
    simp only []
    have hcond : (129 : ℕ) ≤ 255 ∧ v0 ≤ 255 ∧ v1 ≤ 255 ∧ pad ≤ 255 ∧
        p0 ≤ 255 ∧ p1 ≤ 255 ∧ p2 ≤ 255 ∧ p3 ≤ 255 :=
      ⟨by omega, hv0, hv1, hpad, h0, h1, h2, h3⟩
    rw [if_pos hcond]

/-- Witness for C9 (amended) at `val_id = 5`, payload `[9, 8, 7, 6]`, and
the frame `[129, 5, 0, 0, 9, 8, 7, 6]`. -/
theorem claim9_witness :
    (∃ rest, FarmngRepReq.encode 1 true 5 [9, 8, 7, 6] = .ok (129 :: rest)) ∧
    FarmngRepReq.decode [129, 5, 0, 0, 9, 8, 7, 6] =
      some (1, 1, 5 + 256 * 0, [9, 8, 7, 6]) :=
  ⟨claim9_success_bit_packing.1 5 [9, 8, 7, 6] (by norm_num),
   claim9_success_bit_packing.2 5 0 0 9 8 7 6 (by norm_num) (by norm_num)
     (by norm_num) (by norm_num) (by norm_num) (by norm_num) (by norm_num)⟩

/-- C10 (corrected: the frame length accepted by
`struct.unpack("<BHx4s", ·)` is 8, so totality holds at length 8 and a
7-byte input fails).  Counterexample to the claim as stated: a 7-byte
input does not decode. -/
theorem claim10_counterexample :
    FarmngRepReq.decode [255, 255, 255, 255, 255, 255, 255] = none := rfl

/-- C10 (amended).  Implicit decode totality for Request/Reply: for
every input of exactly 8 bytes (each in `[0, 255]`, with no further
restriction), `FarmngRepReq.decode` succeeds and yields an operation in
`[0, 127]` (the low 7 bits of byte 0), a success flag in `{0, 1}`
(bit 7 of byte 0), a value id in `[0, 65535]`, and a payload of exactly
4 bytes. -/
theorem claim10_decode_totality (data : List ℕ) (hl : data.length = 8)
    (hb : ∀ x ∈ data, x ≤ 255) :
    ∃ op s v payload, FarmngRepReq.decode data = some (op, s, v, payload) ∧
      op ≤ 127 ∧ s ≤ 1 ∧ v ≤ 65535 ∧ payload.length = 4 := by
  rcases data with _ | ⟨a, _ | ⟨b, _ | ⟨c, _ | ⟨d, _ | ⟨e, _ | ⟨f, _ |
    ⟨g, _ | ⟨i, _ | ⟨j, tl⟩⟩⟩⟩⟩⟩⟩⟩⟩ <;> simp at hl
  simp only [List.mem_cons, List.not_mem_nil, or_false, forall_eq_or_imp,
    forall_eq] at hb
  obtain ⟨ha, hbb, hc, hd, he, hf, hg, hi⟩ := hb
  refine ⟨a % 128, a / 128, b + 256 * c, [e, f, g, i], ?_, ?_, ?_, ?_, rfl⟩
  · unfold FarmngRepReq.decode
    simp only []
    have hcond : a ≤ 255 ∧ b ≤ 255 ∧ c ≤ 255 ∧ d ≤ 255 ∧
        e ≤ 255 ∧ f ≤ 255 ∧ g ≤ 255 ∧ i ≤ 255 :=
      ⟨ha, hbb, hc, hd, he, hf, hg, hi⟩
    rw [if_pos hcond]
  · omega
  · omega
  · omega

/-- Witness for C10 (amended) on the all-`255` 8-byte input. -/
theorem claim10_witness :
    ∃ op s v payload,
      FarmngRepReq.decode [255, 255, 255, 255, 255, 255, 255, 255] =
        some (op, s, v, payload) ∧
      op ≤ 127 ∧ s ≤ 1 ∧ v ≤ 65535 ∧ payload.length = 4 :=
  claim10_decode_totality [255, 255, 255, 255, 255, 255, 255, 255]
    (by simp) (by simp)

/-- C3 (corrected).  Counterexample to the claim as stated: with period
`1`, last stamp `0` (deadline `1`) and `check()` called at `7/2` —
2.5 periods past the deadline — the call does not report one missed
period (it reports 3: the source divides `now - self.stamp`, measuring
from the previous fire stamp rather than from the deadline), and the new
deadline is not `old_deadline + 2 * period`. -/
theorem claim3_counterexample :
    ¬ (((Timer.mk 1 0).check (7/2)).2.1 = some 1 ∧
       ((Timer.mk 1 0).check (7/2)).2.2.stamp + (Timer.mk 1 0).period_s =
         ((Timer.mk 1 0).stamp + (Timer.mk 1 0).period_s) +
           2 * (Timer.mk 1 0).period_s) := by
  rw [timer_check_concrete]
  intro h
  obtain ⟨h1, -⟩ := h
  simp at h1

/-- C3 (amended).  Timer catch-up semantics: for a `Timer` whose deadline
(`stamp + period`) is 2.5 periods in the past, a single `check()` call
returns true, reports a catch-up of 3 missed periods (the source counts
`floor((now - stamp) / period)`, i.e. from the previous fire stamp), and
leaves the new deadline equal to `old_deadline + 4 * period`, so that an
immediately following `check()` call at the same instant returns
false. -/
theorem claim3_timer_catch_up (t : Timer) (now : ℚ)
    (hp : 0 < t.period_s)
    (hnow : now = (t.stamp + t.period_s) + 5/2 * t.period_s) :
    t.check now =
      (true, some 3, Timer.mk t.period_s (t.stamp + 4 * t.period_s)) ∧
    ((Timer.mk t.period_s (t.stamp + 4 * t.period_s)).check now).1 = false := by
  have hfloor : ⌊(now - t.stamp) / t.period_s⌋ = 3 := by
    have harg : (now - t.stamp) / t.period_s = 7/2 := by
      rw [hnow]
      field_simp
      ring
    rw [harg]
    norm_num
  constructor
  · unfold Timer.check
    rw [if_neg (by rw [hnow]; intro hlt; nlinarith)]
    simp only [hfloor]
    norm_num
  · unfold Timer.check
    rw [if_pos (by rw [hnow]; simp only []; linarith)]

/-- Witness for C3 (amended) at period `1`, stamp `0`, `now = 7/2`. -/
theorem claim3_witness :
    (Timer.mk 1 0).check (7/2) =
      (true, some 3, Timer.mk (1 : ℚ) ((0 : ℚ) + 4 * 1)) ∧
    ((Timer.mk (1 : ℚ) ((0 : ℚ) + 4 * 1)).check (7/2)).1 = false :=
  claim3_timer_catch_up (Timer.mk 1 0) (7/2) (by norm_num) (by norm_num)
